import Mathlib

/-
Verification of reactflow-hooks (src/index.ts): a shallow embedding of its
connectivity predicates and hook wrappers, followed by theorems about them.

The host library (reactflow) supplies a reactive store; its slice relevant to
this package is a node list and an edge list.  In the TS source a handle field
of an edge has type `string | null | undefined`; it is embedded as
`Option (Option String)`: `none` is an absent field (undefined), `some none`
an explicit null, `some (some s)` a handle id.  The nullish coalescing
`h ?? null` collapses the absent case to null.  Throwing is embedded as
`Except String`.
-/

namespace ReactflowHooks

/-- Node of the flow graph: a unique string id and a caller-defined data payload. -/
structure Node (T : Type) where
  id : String
  data : T
  deriving DecidableEq, Repr

/-- Edge of the flow graph, from a source node/handle to a target node/handle.
The handle fields embed `string | null | undefined`; other edge attributes of
the host type are represented by the `id` field. -/
structure Edge where
  id : String
  source : String
  target : String
  sourceHandle : Option (Option String)
  targetHandle : Option (Option String)
  deriving DecidableEq, Repr

/-- Handle direction: an output ("source") or an input ("target") endpoint. -/
inductive HandleType where
  | source
  | target
  deriving DecidableEq, Repr

/-- Nullish coalescing `h ?? null` from the TS source: an absent field collapses
to null, everything else is unchanged. -/
def coalesceNull : Option (Option String) → Option String
  | none => none
  | some v => v

/-- Slice of the host reactflow store read by the accessors: the node list and
the edge list. -/
structure ReactFlowState (T : Type) where
  nodes : List (Node T)
  edges : List Edge
  deriving Repr

/-- Host store accessor `state.getNodes()`. -/
def ReactFlowState.getNodes {T : Type} (state : ReactFlowState T) : List (Node T) :=
  state.nodes

/-- Embeds `isInputConnected(state, nodeId, inputId)`:
`state.edges.some(edge => edge.target === nodeId && (edge.targetHandle ?? null) === inputId)`. -/
def isInputConnected {T : Type} (state : ReactFlowState T) (nodeId : String)
    (inputId : Option String) : Bool :=
  state.edges.any (fun edge => edge.target == nodeId && coalesceNull edge.targetHandle == inputId)

/-- Embeds `isOutputConnected(state, nodeId, outputId)`:
`state.edges.some(edge => edge.source === nodeId && (edge.sourceHandle ?? null) === outputId)`. -/
def isOutputConnected {T : Type} (state : ReactFlowState T) (nodeId : String)
    (outputId : Option String) : Bool :=
  state.edges.any (fun edge => edge.source == nodeId && coalesceNull edge.sourceHandle == outputId)

/-- Embeds `isHandleConnected(state, nodeId, handleId, handleType)`: the ternary
`handleType === 'target' ? isInputConnected(...) : isOutputConnected(...)`. -/
def isHandleConnected {T : Type} (state : ReactFlowState T) (nodeId : String)
    (handleId : Option String) (handleType : HandleType) : Bool :=
  if handleType = HandleType.target then isInputConnected state nodeId handleId
  else isOutputConnected state nodeId handleId

/-- Embeds the wrapper `useNodeId()`.  The host hook `ReactFlow.useNodeId()`
yields the ambient node id or null (`ctxNodeId : Option String`); the wrapper
throws when it is null and returns the id unchanged otherwise. -/
def useNodeId (ctxNodeId : Option String) : Except String String :=
  match ctxNodeId with
  | none =>
    Except.error "Node ID is null. Make sure to call useNodeId() from a node or its children"
  | some nodeId => Except.ok nodeId

/-- Host store lookup `reactflow.getNode(nodeId)` used by `useNode`: the first
node of the store whose id matches. -/
def getNode {T : Type} (state : ReactFlowState T) (nodeId : String) : Option (Node T) :=
  state.getNodes.find? (fun n => n.id == nodeId)

/-- Embeds `useNode()`: reads the ambient node id (throwing when absent), looks
the node up in the store, and throws when it is not found. -/
def useNode {T : Type} (ctxNodeId : Option String) (state : ReactFlowState T) :
    Except String (Node T) :=
  match useNodeId ctxNodeId with
  | Except.error e => Except.error e
  | Except.ok nodeId =>
    match getNode state nodeId with
    | none =>
      Except.error ("Node with ID " ++ nodeId
        ++ " not found. Make sure to call useNode() from a node or its children")
    | some node => Except.ok node

/-- Subscription registered with the host store by `ReactFlow.useStore(selector,
equalityFn)`: the state selector together with the optional equality function. -/
structure StoreSubscription (T : Type) (U : Type) where
  select : ReactFlowState T → Except String U
  equalityFn : Option (U → U → Bool)

/-- Host hook `ReactFlow.useStore`: registers the selector and equality function. -/
def useStore {T U : Type} (select : ReactFlowState T → Except String U)
    (equalityFn : Option (U → U → Bool)) : StoreSubscription T U :=
  ⟨select, equalityFn⟩

/-- Embeds `useNodeState(selector, equalityFn)`: reads the ambient node id
(throwing when absent) and subscribes to the store with a selector that finds
the node by id, throws when it is missing, and otherwise applies `selector`.
The omitted TS selector is the identity (`node as U` with `U = Node T`). -/
def useNodeState {T U : Type} (ctxNodeId : Option String) (selector : Node T → U)
    (equalityFn : Option (U → U → Bool)) : Except String (StoreSubscription T U) :=
  match useNodeId ctxNodeId with
  | Except.error e => Except.error e
  | Except.ok nodeId =>
    Except.ok (useStore
      (fun state =>
        match state.getNodes.find? (fun n => n.id == nodeId) with
        | none =>
          Except.error ("Node with ID " ++ nodeId
            ++ " not found. Make sure to call useNodeState() from a node or its children")
        | some node => Except.ok (selector node))
      equalityFn)

/-- Embeds `useNodeData(selector, equalityFn)`: `useNodeState` on the selector
composed with the data projection.  The omitted TS selector is the identity
(`node.data as U` with `U = T`). -/
def useNodeData {T U : Type} (ctxNodeId : Option String) (selector : T → U)
    (equalityFn : Option (U → U → Bool)) : Except String (StoreSubscription T U) :=
  useNodeState ctxNodeId (fun node => selector node.data) equalityFn

/-- Value produced by a `useNodeState` call on a given store state: the hook
either throws before subscribing or its subscription selector runs on the state. -/
def runNodeState {T U : Type} (ctxNodeId : Option String) (state : ReactFlowState T)
    (selector : Node T → U) (equalityFn : Option (U → U → Bool)) : Except String U :=
  match useNodeState ctxNodeId selector equalityFn with
  | Except.error e => Except.error e
  | Except.ok sub => sub.select state

/-- Value produced by a `useNodeData` call on a given store state. -/
def runNodeData {T U : Type} (ctxNodeId : Option String) (state : ReactFlowState T)
    (selector : T → U) (equalityFn : Option (U → U → Bool)) : Except String U :=
  match useNodeData ctxNodeId selector equalityFn with
  | Except.error e => Except.error e
  | Except.ok sub => sub.select state

/-- C1: isHandleConnected (and its specializations isInputConnected for direction
target and isOutputConnected for direction source) returns true iff some edge has
the queried node as its endpoint on the queried side and that side's handle id
(absent normalized to null) equal to the queried handle id. -/
theorem isHandleConnected_iff_matching_edge {T : Type} (state : ReactFlowState T)
    (n : String) (h : Option String) (d : HandleType) :
    (isInputConnected state n h = true ↔
      ∃ e ∈ state.edges, e.target = n ∧ coalesceNull e.targetHandle = h) ∧
    (isOutputConnected state n h = true ↔
      ∃ e ∈ state.edges, e.source = n ∧ coalesceNull e.sourceHandle = h) ∧
    (isHandleConnected state n h d = true ↔
      ∃ e ∈ state.edges,
        match d with
        | HandleType.target => e.target = n ∧ coalesceNull e.targetHandle = h
        | HandleType.source => e.source = n ∧ coalesceNull e.sourceHandle = h) := by
  refine ⟨?_, ?_, ?_⟩ <;> cases d <;>
    simp [isInputConnected, isOutputConnected, isHandleConnected,
      List.any_eq_true, Bool.and_eq_true, beq_iff_eq]

/-- C3: on a state whose edge collection is empty, all three connectivity
predicates return false, for every node id, handle id and direction. -/
theorem connected_empty_edges_false {T : Type} (nodes : List (Node T)) (n : String)
    (h : Option String) (d : HandleType) :
    isInputConnected (ReactFlowState.mk nodes []) n h = false ∧
    isOutputConnected (ReactFlowState.mk nodes []) n h = false ∧
    isHandleConnected (ReactFlowState.mk nodes []) n h d = false := by
  cases d <;> simp [isInputConnected, isOutputConnected, isHandleConnected]

/-- C7: isHandleConnected with direction target is isInputConnected on the same
arguments, and with direction source it is isOutputConnected. -/
theorem isHandleConnected_specializes {T : Type} (state : ReactFlowState T)
    (n : String) (h : Option String) :
    isHandleConnected state n h HandleType.target = isInputConnected state n h ∧
    isHandleConnected state n h HandleType.source = isOutputConnected state n h :=
  ⟨rfl, rfl⟩

/-- C2: a null-handle query matches exactly the edges with no explicit handle
(null or absent) on the queried side; an explicit-handle query matches exactly
the edges carrying that very handle id there; and on a single edge, no explicit
handle never satisfies an explicit query nor the other way round. -/
theorem handle_null_vs_explicit {T : Type} (state : ReactFlowState T) (n : String)
    (s : String) :
    (isInputConnected state n none = true ↔
      ∃ e ∈ state.edges, e.target = n ∧ coalesceNull e.targetHandle = none) ∧
    (isInputConnected state n (some s) = true ↔
      ∃ e ∈ state.edges, e.target = n ∧ e.targetHandle = some (some s)) ∧
    (isOutputConnected state n none = true ↔
      ∃ e ∈ state.edges, e.source = n ∧ coalesceNull e.sourceHandle = none) ∧
    (isOutputConnected state n (some s) = true ↔
      ∃ e ∈ state.edges, e.source = n ∧ e.sourceHandle = some (some s)) ∧
    (∀ e : Edge, coalesceNull e.targetHandle = none →
      isInputConnected (ReactFlowState.mk state.nodes [e]) n (some s) = false) ∧
    (∀ e : Edge, coalesceNull e.targetHandle = some s →
      isInputConnected (ReactFlowState.mk state.nodes [e]) n none = false) := by
  have hjoin : ∀ v : Option (Option String), coalesceNull v = some s ↔ v = some (some s) := by
    intro v
    cases v with
    | none => simp [coalesceNull]
    | some w => cases w <;> simp [coalesceNull]
  refine ⟨?_, ?_, ?_, ?_, ?_, ?_⟩
  · simp [isInputConnected, List.any_eq_true, Bool.and_eq_true, beq_iff_eq]
  · simp only [isInputConnected, List.any_eq_true, Bool.and_eq_true, beq_iff_eq]
    constructor
    · rintro ⟨e, he, h1, h2⟩
      exact ⟨e, he, h1, (hjoin e.targetHandle).mp h2⟩
    · rintro ⟨e, he, h1, h2⟩
      exact ⟨e, he, h1, (hjoin e.targetHandle).mpr h2⟩
  · simp [isOutputConnected, List.any_eq_true, Bool.and_eq_true, beq_iff_eq]
  · simp only [isOutputConnected, List.any_eq_true, Bool.and_eq_true, beq_iff_eq]
    constructor
    · rintro ⟨e, he, h1, h2⟩
      exact ⟨e, he, h1, (hjoin e.sourceHandle).mp h2⟩
    · rintro ⟨e, he, h1, h2⟩
      exact ⟨e, he, h1, (hjoin e.sourceHandle).mpr h2⟩
  · intro e he
    simp [isInputConnected, he]
  · intro e he
    simp [isInputConnected, he]

/-- Witness for C2 at a concrete input: an edge with an absent target handle
does not satisfy the explicit-handle query. -/
theorem handle_null_vs_explicit_witness :
    coalesceNull (Edge.mk "e1" "a" "n" none none).targetHandle = none ∧
    isInputConnected (ReactFlowState.mk ([] : List (Node Nat))
      [Edge.mk "e1" "a" "n" none none]) "n" (some "h") = false :=
  ⟨rfl,
    (handle_null_vs_explicit
        (ReactFlowState.mk ([] : List (Node Nat)) [Edge.mk "e1" "a" "n" none none])
        "n" "h").2.2.2.2.1
      (Edge.mk "e1" "a" "n" none none) rfl⟩

/-- C4: the three connectivity predicates are invariant under permutation of the
edge collection (and do not read the node list at all). -/
theorem connected_perm_invariant {T : Type} (E E' : List Edge) (hp : E.Perm E')
    (nodes nodes' : List (Node T)) (n : String) (h : Option String) (d : HandleType) :
    isInputConnected (ReactFlowState.mk nodes E) n h
      = isInputConnected (ReactFlowState.mk nodes' E') n h ∧
    isOutputConnected (ReactFlowState.mk nodes E) n h
      = isOutputConnected (ReactFlowState.mk nodes' E') n h ∧
    isHandleConnected (ReactFlowState.mk nodes E) n h d
      = isHandleConnected (ReactFlowState.mk nodes' E') n h d := by
  have key : ∀ p : Edge → Bool, E.any p = E'.any p := by
    intro p
    have hiff : (E.any p = true) ↔ (E'.any p = true) := by
      simp only [List.any_eq_true]
      constructor
      · rintro ⟨e, he, hpe⟩
        exact ⟨e, hp.mem_iff.mp he, hpe⟩
      · rintro ⟨e, he, hpe⟩
        exact ⟨e, hp.mem_iff.mpr he, hpe⟩
    cases h1 : E.any p <;> cases h2 : E'.any p <;> simp [h1, h2] at hiff ⊢
  refine ⟨key _, key _, ?_⟩
  cases d <;> simp [isHandleConnected, isInputConnected, isOutputConnected] <;> exact key _

/-- Witness for C4 at a concrete input: swapping two edges leaves
isInputConnected unchanged. -/
theorem connected_perm_invariant_witness :
    isInputConnected (ReactFlowState.mk ([] : List (Node Nat))
        [Edge.mk "e1" "a" "n" none none, Edge.mk "e2" "b" "m" none none]) "n" none
      = isInputConnected (ReactFlowState.mk ([] : List (Node Nat))
        [Edge.mk "e2" "b" "m" none none, Edge.mk "e1" "a" "n" none none]) "n" none :=
  (connected_perm_invariant
      [Edge.mk "e1" "a" "n" none none, Edge.mk "e2" "b" "m" none none]
      [Edge.mk "e2" "b" "m" none none, Edge.mk "e1" "a" "n" none none]
      (List.Perm.swap (Edge.mk "e2" "b" "m" none none) (Edge.mk "e1" "a" "n" none none) [])
      [] [] "n" none HandleType.target).1

/-- C9: the connectivity predicates are monotone in the edge collection; a true
answer stays true after appending a further edge. -/
theorem connected_monotone {T : Type} (state : ReactFlowState T) (e : Edge)
    (n : String) (h : Option String) (d : HandleType) :
    (isInputConnected state n h = true →
      isInputConnected (ReactFlowState.mk state.nodes (state.edges ++ [e])) n h = true) ∧
    (isOutputConnected state n h = true →
      isOutputConnected (ReactFlowState.mk state.nodes (state.edges ++ [e])) n h = true) ∧
    (isHandleConnected state n h d = true →
      isHandleConnected (ReactFlowState.mk state.nodes (state.edges ++ [e])) n h d = true) := by
  refine ⟨?_, ?_, ?_⟩ <;> cases d <;>
    · intro htrue
      simp only [isHandleConnected, isInputConnected, isOutputConnected,
        List.any_append] at htrue ⊢
      simp_all

/-- Witness for C9 at a concrete input: a connected target handle stays
connected after an unrelated edge is appended. -/
theorem connected_monotone_witness :
    isInputConnected (ReactFlowState.mk ([] : List (Node Nat))
      [Edge.mk "e1" "a" "n" none none]) "n" none = true ∧
    isInputConnected (ReactFlowState.mk ([] : List (Node Nat))
      ([Edge.mk "e1" "a" "n" none none] ++ [Edge.mk "e2" "b" "m" none (some (some "x"))]))
      "n" none = true :=
  ⟨rfl,
    (connected_monotone
        (ReactFlowState.mk ([] : List (Node Nat)) [Edge.mk "e1" "a" "n" none none])
        (Edge.mk "e2" "b" "m" none (some (some "x"))) "n" none HandleType.target).1 rfl⟩

/-- C10: isInputConnected reads only each edge's target and targetHandle fields,
and isOutputConnected only each edge's source and sourceHandle fields: edge
collections agreeing pointwise on those fields give the same answer, whatever
the opposite side's fields or the other attributes are. -/
theorem connected_reads_only_side_fields {T : Type} (E E' : List Edge)
    (nodes nodes' : List (Node T)) (n : String) (h : Option String) :
    (List.Forall₂ (fun e e' => e.target = e'.target ∧ e.targetHandle = e'.targetHandle) E E' →
      isInputConnected (ReactFlowState.mk nodes E) n h
        = isInputConnected (ReactFlowState.mk nodes' E') n h) ∧
    (List.Forall₂ (fun e e' => e.source = e'.source ∧ e.sourceHandle = e'.sourceHandle) E E' →
      isOutputConnected (ReactFlowState.mk nodes E) n h
        = isOutputConnected (ReactFlowState.mk nodes' E') n h) := by
  constructor
  · intro hf
    simp only [isInputConnected]
    induction hf with
    | nil => rfl
    | cons h12 _ ih => simp only [List.any_cons, h12.1, h12.2, ih]
  · intro hf
    simp only [isOutputConnected]
    induction hf with
    | nil => rfl
    | cons h12 _ ih => simp only [List.any_cons, h12.1, h12.2, ih]

/-- Witness for C10 at a concrete input: two edges sharing target and
targetHandle but differing in id, source and sourceHandle give the same
isInputConnected answer. -/
theorem connected_reads_only_side_fields_witness :
    isInputConnected (ReactFlowState.mk ([] : List (Node Nat))
        [Edge.mk "e1" "a" "n" none none]) "n" none
      = isInputConnected (ReactFlowState.mk ([] : List (Node Nat))
        [Edge.mk "zz" "b" "n" (some (some "q")) none]) "n" none :=
  (connected_reads_only_side_fields
      [Edge.mk "e1" "a" "n" none none] [Edge.mk "zz" "b" "n" (some (some "q")) none]
      [] [] "n" none).1
    (List.Forall₂.cons ⟨rfl, rfl⟩ List.Forall₂.nil)

/-- C5: useNodeId throws exactly when the ambient host node id is null, and
otherwise returns that id unchanged. -/
theorem useNodeId_contract (ctx : Option String) :
    ((∃ msg, useNodeId ctx = Except.error msg) ↔ ctx = none) ∧
    (∀ s, ctx = some s → useNodeId ctx = Except.ok s) := by
  cases ctx <;> simp [useNodeId]

/-- Witness for C5 at a concrete input: inside a node context the id is
returned unchanged. -/
theorem useNodeId_contract_witness : useNodeId (some "node-1") = Except.ok "node-1" :=
  (useNodeId_contract (some "node-1")).2 "node-1" rfl

/-- C6: useNode and (run on a state) useNodeState yield a value exactly when the
ambient node id is present and the store holds a node with that id; on success
useNode returns such a stored node and useNodeState its selected projection, and
otherwise they throw with no partial result. -/
theorem useNode_useNodeState_context_contract {T U : Type} (ctx : Option String)
    (state : ReactFlowState T) (selector : Node T → U)
    (equalityFn : Option (U → U → Bool)) :
    ((∃ node, useNode ctx state = Except.ok node) ↔
      ∃ nid, ctx = some nid ∧ ∃ node ∈ state.nodes, node.id = nid) ∧
    (∀ node, useNode ctx state = Except.ok node →
      node ∈ state.nodes ∧ ctx = some node.id) ∧
    ((∃ u, runNodeState ctx state selector equalityFn = Except.ok u) ↔
      ∃ nid, ctx = some nid ∧ ∃ node ∈ state.nodes, node.id = nid) ∧
    (∀ u, runNodeState ctx state selector equalityFn = Except.ok u →
      ∃ node ∈ state.nodes, ctx = some node.id ∧ u = selector node) := by
  cases ctx with
  | none =>
    simp [useNode, useNodeId, runNodeState, useNodeState]
  | some nid =>
    cases hfind : state.nodes.find? (fun m => m.id == nid) with
    | none =>
      have hnone := List.find?_eq_none.mp hfind
      refine ⟨?_, ?_, ?_, ?_⟩
      · simp only [useNode, useNodeId, getNode, ReactFlowState.getNodes, hfind]
        simp only [Option.some.injEq]
        constructor
        · rintro ⟨node, hnode⟩
          exact absurd hnode (by simp)
        · rintro ⟨nid', rfl, node, hmem, hid⟩
          exact absurd (beq_iff_eq.mpr hid) (hnone node hmem)
      · intro node hnode
        simp only [useNode, useNodeId, getNode, ReactFlowState.getNodes, hfind] at hnode
        exact Except.noConfusion hnode
      · simp only [runNodeState, useNodeState, useNodeId, useStore,
          ReactFlowState.getNodes, hfind]
        simp only [Option.some.injEq]
        constructor
        · rintro ⟨u, hu⟩
          exact absurd hu (by simp)
        · rintro ⟨nid', rfl, node, hmem, hid⟩
          exact absurd (beq_iff_eq.mpr hid) (hnone node hmem)
      · intro u hu
        simp only [runNodeState, useNodeState, useNodeId, useStore,
          ReactFlowState.getNodes, hfind] at hu
        exact Except.noConfusion hu
    | some node =>
      have hpb := List.find?_some hfind
      have hp : node.id = nid := beq_iff_eq.mp hpb
      have hmem : node ∈ state.nodes := List.mem_of_find?_eq_some hfind
      refine ⟨?_, ?_, ?_, ?_⟩
      · simp only [useNode, useNodeId, getNode, ReactFlowState.getNodes, hfind]
        exact ⟨fun _ => ⟨nid, rfl, node, hmem, hp⟩, fun _ => ⟨node, rfl⟩⟩
      · intro node' hnode'
        simp only [useNode, useNodeId, getNode, ReactFlowState.getNodes, hfind,
          Except.ok.injEq] at hnode'
        subst hnode'
        exact ⟨hmem, by rw [hp]⟩
      · simp only [runNodeState, useNodeState, useNodeId, useStore,
          ReactFlowState.getNodes, hfind]
        exact ⟨fun _ => ⟨nid, rfl, node, hmem, hp⟩, fun _ => ⟨selector node, rfl⟩⟩
      · intro u hu
        simp only [runNodeState, useNodeState, useNodeId, useStore,
          ReactFlowState.getNodes, hfind, Except.ok.injEq] at hu
        exact ⟨node, hmem, by rw [hp], hu.symm⟩

/-- Witness for C6 at a concrete input: with the node present in the store,
useNode returns a stored node with the ambient id. -/
theorem useNode_useNodeState_context_contract_witness :
    Node.mk "n1" (0 : Nat) ∈ (ReactFlowState.mk [Node.mk "n1" (0 : Nat)] []).nodes ∧
    (some "n1") = some (Node.mk "n1" (0 : Nat)).id :=
  (useNode_useNodeState_context_contract (some "n1")
      (ReactFlowState.mk [Node.mk "n1" (0 : Nat)] []) (fun node => node) none).2.1
    (Node.mk "n1" 0) rfl

/-- C8: useNodeData with a selector is the very subscription of useNodeState on
the data projection (same selector semantics, same equality function); on a
state holding the current node it yields the selector applied to that node's
data, and with the identity (omitted) selector the data itself. -/
theorem useNodeData_refines_useNodeState {T U : Type} (ctx : Option String)
    (state : ReactFlowState T) (s : T → U) (equalityFn : Option (U → U → Bool))
    (eqT : Option (T → T → Bool)) (nid : String) (node : Node T) :
    useNodeData ctx s equalityFn = useNodeState ctx (fun n => s n.data) equalityFn ∧
    (ctx = some nid → getNode state nid = some node →
      runNodeData ctx state s equalityFn = Except.ok (s node.data) ∧
      runNodeData ctx state (fun d => d) eqT = Except.ok node.data) := by
  refine ⟨rfl, ?_⟩
  rintro rfl hfind
  have hfind' : state.nodes.find? (fun m => m.id == nid) = some node := hfind
  constructor <;>
    simp [runNodeData, useNodeData, useNodeState, useNodeId, useStore,
      ReactFlowState.getNodes, hfind']

/-- Witness for C8 at a concrete input: the data selector sees the stored data,
and the identity selector returns the data itself. -/
theorem useNodeData_refines_useNodeState_witness :
    runNodeData (some "n1") (ReactFlowState.mk [Node.mk "n1" (3 : Nat)] [])
        (fun d => d + 1) none = Except.ok 4 ∧
    runNodeData (some "n1") (ReactFlowState.mk [Node.mk "n1" (3 : Nat)] [])
        (fun d => d) none = Except.ok 3 :=
  (useNodeData_refines_useNodeState (some "n1")
      (ReactFlowState.mk [Node.mk "n1" (3 : Nat)] []) (fun d => d + 1) none none
      "n1" (Node.mk "n1" 3)).2 rfl rfl

end ReactflowHooks
